import Mathlib

/-!
# Verification of the OPC_UA_Client annotated example programs

A shallow embedding, in Lean 4, of the behaviour defined by the repository's
annotated example files (`src/open62451pp/examples/...` and the demo drivers).
The examples are thin drivers over the open62541pp library; the parts embedded
here are the pieces of logic the repository itself defines: the two server
method handlers, the custom access-control class, the templated data source,
the client-connect control flow, the subscription reconnect loop, the async
method-call trace, and the syntactic inventory of files, classes and type
registrations that several specification sentences quantify over.

Machine integers are modelled as `Int` with explicit two's-complement
wrap-around where the C++ code performs `int32_t` arithmetic.  Fallible C++
operations (`Span::at`, `Variant::scalar`, `Variant::to`) are modelled with
`Option`.
-/

namespace OpcUaExamples

/-! ## Int32 arithmetic (two's-complement, 32-bit) -/

/-- Wrap an unbounded integer into the `int32_t` range
`[-2^31, 2^31)` (two's-complement). -/
def Int32.wrap (x : Int) : Int :=
  (x + 2 ^ 31) % 2 ^ 32 - 2 ^ 31

/-- `int32_t` addition with wrap-around, the practical semantics of
`v + delta` in the `IncInt32ArrayValues` lambda
(`server_method_annotated.cpp`). -/
def Int32.add (a b : Int) : Int :=
  Int32.wrap (a + b)

/-- Membership in the `int32_t` value range. -/
def Int32.inRange (x : Int) : Prop :=
  -(2 ^ 31) ≤ x ∧ x < 2 ^ 31

instance (x : Int) : Decidable (Int32.inRange x) := by
  unfold Int32.inRange; infer_instance

/-! ## Variants

`opcua::Variant` is a tagged container for OPC UA scalar or array values.
The examples only ever store strings, booleans, `int32_t` scalars and
`int32_t` arrays in the variants our claims touch, so the embedding carries
exactly those alternatives. -/

/-- The value alternatives of `opcua::Variant` used by the embedded examples. -/
inductive Variant where
  | vString (s : String)
  | vBool (b : Bool)
  | vInt32 (v : Int)
  | vInt32Array (l : List Int)
  deriving DecidableEq, Repr

/-- `Variant::scalar<opcua::String>()`: succeeds only on a string variant
(in C++ a mismatch throws; modelled as `none`). -/
def Variant.scalarString : Variant → Option String
  | .vString s => some s
  | _ => none

/-- `Variant::scalar<bool>()`. -/
def Variant.scalarBool : Variant → Option Bool
  | .vBool b => some b
  | _ => none

/-- `Variant::scalar<int32_t>()`. -/
def Variant.scalarInt32 : Variant → Option Int
  | .vInt32 v => some v
  | _ => none

/-- `Variant::array<int32_t>()`. -/
def Variant.arrayInt32 : Variant → Option (List Int)
  | .vInt32Array l => some l
  | _ => none

/-! ## The two server method handlers (`server_method_annotated.cpp`)

A method handler receives an input span and an output span of variants
(`Span<const Variant> input, Span<Variant> output`).  The pair of spans is
the `MethodCallState`; a handler maps a state to `none` when the C++ body
would throw (out-of-range `at`, or a scalar/array type mismatch). -/

/-- The two spans a method handler operates on. -/
structure MethodCallState where
  input : List Variant
  output : List Variant
  deriving DecidableEq, Repr

/-- `output.at(0) = v`: writes position 0, throws (`none`) when the output
span is empty. -/
def writeOutput0 (l : List Variant) (v : Variant) : Option (List Variant) :=
  match l with
  | [] => none
  | _ :: rest => some (v :: rest)

/-- The `Greet` handler body (`server_method_annotated.cpp`, lines 44-57):
reads `input.at(0).scalar<String>()` as `name`, builds
`std::string{"Hello "}.append(name)` and assigns it to `output.at(0)`. -/
def greetRun (s : MethodCallState) : Option MethodCallState :=
  match s.input[0]? >>= Variant.scalarString with
  | none => none
  | some name =>
    match writeOutput0 s.output (.vString ("Hello " ++ name)) with
    | none => none
    | some out => some { s with output := out }

/-- The `IncInt32ArrayValues` handler body (`server_method_annotated.cpp`,
lines 87-114): reads `input.at(0).array<int32_t>()` as `values` and
`input.at(1).scalar<int32_t>()` as `delta`, then assigns to `output.at(0)`
the transform of `values` by `fun v => v + delta` (int32 arithmetic). -/
def incInt32Run (s : MethodCallState) : Option MethodCallState :=
  match s.input[0]? >>= Variant.arrayInt32, s.input[1]? >>= Variant.scalarInt32 with
  | some values, some delta =>
    match writeOutput0 s.output (.vInt32Array (values.map (fun v => Int32.add v delta))) with
    | none => none
    | some out => some { s with output := out }
  | _, _ => none

/-- The specification's pass-through notion, formalised from its words for
claim C1 (the handler "performs no computation of its own on its inputs
beyond delegating to library calls"): every variant the handler leaves in the
output span is one of the supplied input or output variants, unchanged.  The
handler bodies themselves are embedded from the source in `greetRun` and
`incInt32Run`; this definition exists only to be compared against them. -/
def specPassThroughHandler (run : MethodCallState → Option MethodCallState) : Prop :=
  ∀ s t, run s = some t → ∀ x ∈ t.output, x ∈ s.input ∨ x ∈ s.output

/-! ## Inventory of the supplied source files

Claims C2, C3 and C4 quantify over "the supplied source files", "the classes
defined in the supplied files" and "the example programs".  These are
syntactic facts; the embedding enumerates the 22 supplied `.cpp` files and
reads the relevant facts directly off each file. -/

/-- The 22 supplied source files of the repository. -/
inductive SourceFile where
  | serverInstantiation    -- examples/server_instantiation_annotated.cpp
  | serverValuecallback    -- examples/server_valuecallback_annotated.cpp
  | serverMain             -- examples/server_annotated.cpp
  | clientMethodAsync      -- examples/method/client_method_async_annotated.cpp
  | clientMethod           -- examples/method/client_method_annotated.cpp
  | serverMethod           -- examples/method/server_method_annotated.cpp
  | clientCustomDatatypes  -- examples/custom_datatypes/client_custom_datatypes_annotated.cpp
  | serverCustomDatatypes  -- examples/custom_datatypes/server_custom_datatypes_annotated.cpp
  | serverAccesscontrol    -- examples/server_accesscontrol_annotated.cpp
  | clientBrowse           -- examples/client_browse_annotated.cpp
  | clientFindServers      -- examples/client_find_servers_annotated.cpp
  | clientSubscription     -- examples/client_subscription_annotated.cpp
  | serverEvents           -- examples/events/server_events_annotated.cpp
  | clientEventfilter      -- examples/events/client_eventfilter_annotated.cpp
  | serverDatasource       -- examples/server_datasource_annotated.cpp
  | clientAsync            -- examples/client_async_annotated.cpp
  | clientConnect          -- examples/client_connect_annotated.cpp
  | typeconversion         -- examples/typeconversion_annotated.cpp
  | serverLogger           -- examples/server_logger_annotated.cpp
  | demoSubmoduleClient    -- demo/demo_submodule/client_demo.cpp
  | demoStaticServer       -- example/demo_static/server_demo.cpp
  | demoInstalledClient    -- example/demo_installed/client_demo.cpp
  deriving DecidableEq, Repr, Fintype

/-- Whether the file's `main` has the `(int argc, char* argv[])` signature,
read off the source: only `client_connect_annotated.cpp` does, every other
`main` is parameterless. -/
def mainTakesArgv : SourceFile → Bool
  | .clientConnect => true
  | _ => false

/-- Whether the file introduces a mapping between a C++ type and a native
OPC UA type, read off the source: only `typeconversion_annotated.cpp` does,
by specialising `opcua::TypeConverter<std::byte>` (lines 34-64). -/
def definesTypeMapping : SourceFile → Bool
  | .typeconversion => true
  | _ => false

/-- Whether the file registers repository-defined data types, read off the
source: both custom-datatypes examples call `config().addCustomDataTypes`
with the five repository-defined types (Point, Measurements, Opt, Uni,
Color). -/
def registersCustomDataTypes : SourceFile → Bool
  | .clientCustomDatatypes => true
  | .serverCustomDatatypes => true
  | _ => false

/-- `TypeConverter<std::byte>::fromNative`: `std::byte{src}` — the identity
on the 8-bit value (`typeconversion_annotated.cpp`, line 48). -/
def byteFromNative (src : Fin 256) : Fin 256 := src

/-- `TypeConverter<std::byte>::toNative`: `std::to_integer<UA_Byte>(src)` —
the identity on the 8-bit value (`typeconversion_annotated.cpp`, line 61). -/
def byteToNative (src : Fin 256) : Fin 256 := src

/-! ## Inventory of classes defined in the supplied files

Exactly four classes/structs are defined across the 22 files
(`grep`-complete): `AccessControlCustom`, `CurrentTimeCallback`, the
templated `DataSource`, and the template specialisation
`TypeConverter<std::byte>` (which derives from nothing). -/

/-- The classes/structs defined by the supplied files. -/
inductive DefinedClass where
  | accessControlCustom   -- server_accesscontrol_annotated.cpp, line 37
  | currentTimeCallback   -- server_valuecallback_annotated.cpp, line 37
  | dataSource            -- server_datasource_annotated.cpp, line 40
  | typeConverterByte     -- typeconversion_annotated.cpp, line 35
  deriving DecidableEq, Repr, Fintype

/-- The plugin interfaces of the wrapped library that appear as base
classes in the supplied files. -/
inductive PluginInterface where
  | accessControlDefault
  | valueCallbackBase
  | dataSourceBase
  deriving DecidableEq, Repr, Fintype

/-- The base class of each defined class, read off the source.
`TypeConverter<std::byte>` is a template specialisation with no base. -/
def derivesFromPlugin : DefinedClass → Option PluginInterface
  | .accessControlCustom => some .accessControlDefault
  | .currentTimeCallback => some .valueCallbackBase
  | .dataSource => some .dataSourceBase
  | .typeConverterByte => none

/-- The file each class is defined in. -/
def classFile : DefinedClass → SourceFile
  | .accessControlCustom => .serverAccesscontrol
  | .currentTimeCallback => .serverValuecallback
  | .dataSource => .serverDatasource
  | .typeConverterByte => .typeconversion

/-! ## The client-connect example (`client_connect_annotated.cpp`) -/

/-- Modelled from the spec: the repository's `helper.hpp` (the `CliParser`
used by `client_connect_annotated.cpp`) is not among the supplied files; the
spec describes it only as "ad hoc command-line argument parsing for one
example".  The model keeps the whole argument vector: `nargs` counts the
arguments, `hasFlag` tests membership, `value` returns the argument
following the given flag. -/
structure CliParser where
  args : List String
  deriving DecidableEq, Repr

/-- Modelled from the spec: number of command-line arguments (`argc`). -/
def CliParser.nargs (p : CliParser) : Nat := p.args.length

/-- Modelled from the spec: whether the flag occurs among the arguments. -/
def CliParser.hasFlag (p : CliParser) (flag : String) : Bool :=
  p.args.contains flag

/-- Modelled from the spec: the argument following the given key, if any. -/
def CliParser.value (p : CliParser) (key : String) : Option String :=
  match p.args.dropWhile (fun a => a ≠ key) with
  | _ :: v :: _ => some v
  | _ => none

/-- The environment facts the client-connect run depends on: whether
`Client::connect` throws, and whether the subsequent `readValue` result
`hasValue()`. -/
structure ConnectEnv where
  connectThrows : Bool
  readHasValue : Bool
  deriving DecidableEq, Repr

/-- The observable events of a client-connect run, one per `std::cout`
print / client operation of `main` (`client_connect_annotated.cpp`). -/
inductive ConnectEvent where
  | printUsage
  | clientConstructed
  | setUserToken (user : String) (pass : String)
  | connectAttempt (url : String)
  | connectFailed
  | readAttempt
  | printTime
  | printReadError
  | disconnected
  deriving DecidableEq, Repr

/-- The usage guard of `main` (`client_connect_annotated.cpp`, line 34):
`parser.nargs() < 2 || parser.hasFlag("-h") || parser.hasFlag("--help")`. -/
def usageRequested (argv : List String) : Bool :=
  decide ((CliParser.mk argv).nargs < 2) || (CliParser.mk argv).hasFlag "-h" ||
    (CliParser.mk argv).hasFlag "--help"

/-- `main` of `client_connect_annotated.cpp` (lines 27-122): usage guard
returning 2; client construction; optional user identity token; connect in
a try/catch returning 1 on failure; `readValue` checked with `hasValue()`;
disconnect and return 0. -/
def clientConnectMain (argv : List String) (env : ConnectEnv) : Nat × List ConnectEvent :=
  if usageRequested argv then
    (2, [.printUsage])
  else
    let parser := CliParser.mk argv
    let serverUrl := parser.args.getLastD ""
    let username := parser.value "--username"
    let password := parser.value "--password"
    let setup := [ConnectEvent.clientConstructed] ++
      (match username with
       | some u => [ConnectEvent.setUserToken u (password.getD "")]
       | none => []) ++ [ConnectEvent.connectAttempt serverUrl]
    if env.connectThrows then
      (1, setup ++ [.connectFailed])
    else
      (0, setup ++ [.readAttempt] ++
        (if env.readHasValue then [ConnectEvent.printTime] else [ConnectEvent.printReadError]) ++
        [.disconnected])

/-- Console rendering of a connect event, one line per event.  The literal
text abbreviates the corresponding `std::cout` statement; the faithful
content is which prints happen, in which order, with which data. -/
def ConnectEvent.render : ConnectEvent → String
  | .printUsage => "usage: client_connect [options] opc.tcp://host:port"
  | .clientConstructed => "client constructed"
  | .setUserToken u p => "user token " ++ u ++ " " ++ p
  | .connectAttempt url => "connecting to " ++ url
  | .connectFailed => "connection failed"
  | .readAttempt => "reading server time"
  | .printTime => "server time (UTC)"
  | .printReadError => "read failed"
  | .disconnected => "disconnected"

/-- A run of any of the 22 example programs, observed as exit code and
console lines.  The mains other than `client_connect` are parameterless
(`int main()`), so their behaviour is a function of the ambient environment
only; that function is the `behaviour` parameter, universally quantified in
the theorems.  Only the `client_connect` branch can see `argv`. -/
def runExampleProgram (behaviour : SourceFile → Nat × List String)
    (f : SourceFile) (argv : List String) (env : ConnectEnv) : Nat × List String :=
  if f = .clientConnect then
    ((clientConnectMain argv env).1, (clientConnectMain argv env).2.map ConnectEvent.render)
  else behaviour f

/-! ## The custom access control (`server_accesscontrol_annotated.cpp`) -/

/-- `opcua::UserNameIdentityToken` as used by the access-control example. -/
structure UserNameIdentityToken where
  userName : String
  password : String
  deriving DecidableEq, Repr

/-- The `ExtensionObject` carrying the user identity token: possibly empty,
an anonymous token, or a user-name token. -/
inductive ExtensionObject where
  | empty
  | anonymousToken
  | userNameToken (t : UserNameIdentityToken)
  deriving DecidableEq, Repr

/-- `ExtensionObject::decodedData<UserNameIdentityToken>()`: the decoded
token when the object holds a `UserNameIdentityToken`, null (`none`)
otherwise — in particular for anonymous users. -/
def ExtensionObject.decodedUserNameToken :
    ExtensionObject → Option UserNameIdentityToken
  | .userNameToken t => some t
  | _ => none

/-- An attribute key `{namespaceIndex, identifier}` with string identifier,
as in `session.setSessionAttribute({0, "isAdmin"}, ...)`. -/
abbrev AttributeKey := Nat × String

/-- The per-session attribute store of `opcua::Session`. -/
structure Session where
  attributes : List (AttributeKey × Variant)
  deriving DecidableEq, Repr

/-- `Session::setSessionAttribute`: store the variant under the key,
replacing any previous binding. -/
def Session.setSessionAttribute (s : Session) (key : AttributeKey) (v : Variant) :
    Session :=
  ⟨(key, v) :: s.attributes.filter (fun kv => kv.1 != key)⟩

/-- `Session::getSessionAttribute`: the stored variant, empty (`none`) when
the attribute was never stored. -/
def Session.getSessionAttribute (s : Session) (key : AttributeKey) : Option Variant :=
  (s.attributes.find? (fun kv => kv.1 == key)).map (fun kv => kv.2)

/-- `AccessLevel::CurrentRead` (`UA_ACCESSLEVELMASK_READ`, bit 0). -/
def AccessLevel.currentRead : Nat := 1

/-- `AccessLevel::CurrentWrite` (`UA_ACCESSLEVELMASK_WRITE`, bit 1). -/
def AccessLevel.currentWrite : Nat := 2

/-- `AccessControlCustom::activateSession`
(`server_accesscontrol_annotated.cpp`, lines 56-79): decode the user
identity token, compute `isAdmin` (non-null token whose `userName` is
`"admin"`), store it under the session attribute `{0, "isAdmin"}`, then
delegate to `AccessControlDefault::activateSession`; the delegate is the
`defaultActivate` parameter, applied to the updated session and the same
token, and its verdict is returned unchanged. -/
def activateSessionCustom (defaultActivate : Session → ExtensionObject → Nat)
    (session : Session) (userIdentityToken : ExtensionObject) : Session × Nat :=
  let token := userIdentityToken.decodedUserNameToken
  let isAdmin := match token with
    | some t => t.userName == "admin"
    | none => false
  let s2 := session.setSessionAttribute (0, "isAdmin") (.vBool isAdmin)
  (s2, defaultActivate s2 userIdentityToken)

/-- A numeric node id `{namespaceIndex, identifier}`. -/
abbrev NumericNodeId := Nat × Nat

/-- `AccessControlCustom::getUserAccessLevel`
(`server_accesscontrol_annotated.cpp`, lines 91-109): read the session's
`isAdmin` attribute as a bool (`none` models the C++ throw on an absent or
non-bool attribute) and grant read+write to admins, read only to everyone
else; the node id is not consulted. -/
def getUserAccessLevelCustom (session : Session) (_nodeId : NumericNodeId) :
    Option Nat :=
  match (session.getSessionAttribute (0, "isAdmin")).bind Variant.scalarBool with
  | none => none
  | some isAdmin =>
    if isAdmin then some (AccessLevel.currentRead ||| AccessLevel.currentWrite)
    else some AccessLevel.currentRead

/-! ## The templated data source (`server_datasource_annotated.cpp`) -/

/-- `UA_STATUSCODE_GOOD`. -/
def UA_STATUSCODE_GOOD : Nat := 0

/-- `opcua::DataValue` restricted to what the data-source example touches:
an optional value of the element type and an optional source timestamp. -/
structure DataValue (α : Type) where
  value : Option α
  sourceTimestamp : Option Nat
  deriving DecidableEq, Repr

/-- The internal storage of the templated `DataSource`
(`server_datasource_annotated.cpp`, line 106): `T data{}`. -/
structure DataSourceState (α : Type) where
  data : α
  deriving DecidableEq, Repr

/-- `DataSource::read` (`server_datasource_annotated.cpp`, lines 54-75):
set the stored data into `dv`, set the source timestamp to the current time
when requested, and return `UA_STATUSCODE_GOOD`.  The body never assigns
`data`; the embedding returns the (unchanged) state alongside. -/
def dataSourceRead {α : Type} (s : DataSourceState α) (dv : DataValue α)
    (timestamp : Bool) (now : Nat) : DataSourceState α × DataValue α × Nat :=
  (s,
   { dv with
      value := some s.data,
      sourceTimestamp := if timestamp then some now else dv.sourceTimestamp },
   UA_STATUSCODE_GOOD)

/-- `DataSource::write` (`server_datasource_annotated.cpp`, lines 89-103):
`data = dv.value().to<T>()` — the C++ conversion throws on an empty or
mismatched variant, modelled as `none` — then return `UA_STATUSCODE_GOOD`. -/
def dataSourceWrite {α : Type} (s : DataSourceState α) (dv : DataValue α) :
    Option (DataSourceState α × Nat) :=
  match dv.value with
  | some x => some ({ s with data := x }, UA_STATUSCODE_GOOD)
  | none => none

/-! ## The subscription example (`client_subscription_annotated.cpp`)

`main` runs two nested loops guarded by the atomic flag `isRunning`: the
outer loop connects and, on `opcua::BadStatus`, disconnects and sleeps
3 seconds before retrying; the inner loop calls `runIterate(100)` while the
flag is set.  The embedding is a step machine: each step first lets a
pending signal run the registered handler, then executes the next piece of
the control flow, emitting the client actions it performs. -/

/-- POSIX `SIGINT`. -/
def SIGINT : Nat := 2

/-- POSIX `SIGTERM`. -/
def SIGTERM : Nat := 15

/-- `signalHandler` (`client_subscription_annotated.cpp`, lines 43-50):
clears `isRunning` on SIGINT or SIGTERM, leaves it unchanged otherwise. -/
def signalHandler (sig : Nat) (isRunning : Bool) : Bool :=
  if sig == SIGINT || sig == SIGTERM then false else isRunning

/-- The signals `main` registers the handler for (line 126):
`std::signal(SIGINT, signalHandler)` only. -/
def registeredSignals : List Nat := [SIGINT]

/-- Delivery of an optional pending signal: the handler runs only for
registered signals. -/
def applySignal (sig : Option Nat) (isRunning : Bool) : Bool :=
  match sig with
  | some s =>
    if registeredSignals.contains s then signalHandler s isRunning else isRunning
  | none => isRunning

/-- The control points of `main`'s loop structure (lines 133-175). -/
inductive SubPhase where
  | outerCheck   -- about to evaluate the outer while (isRunning)
  | tryConnect   -- about to call client.connect inside the try block
  | innerCheck   -- about to evaluate the inner while (isRunning)
  | finalCleanup -- after the outer loop, about to disconnect
  | exited       -- main returned
  deriving DecidableEq, Repr, Fintype

/-- Control point plus the current value of the atomic flag. -/
structure SubState where
  phase : SubPhase
  running : Bool
  deriving DecidableEq, Repr, Fintype

/-- The client actions the loop can perform. -/
inductive SubAction where
  | connect
  | runIterate (ms : Nat)
  | disconnect
  | sleepSeconds (n : Nat)
  deriving DecidableEq, Repr

/-- External happenings of one step: an optionally delivered signal, and
whether the library call performed in this step throws `BadStatus`. -/
structure SubEvent where
  sig : Option Nat
  fails : Bool
  deriving DecidableEq, Repr

/-- One step of `main`'s loop structure.  A `BadStatus` thrown by `connect`
or `runIterate` is handled by the `catch` block (lines 146-161): disconnect,
sleep 3 seconds, back to the outer check. -/
def subStep (s : SubState) (e : SubEvent) : SubState × List SubAction :=
  let r := applySignal e.sig s.running
  match s.phase with
  | .outerCheck => if r then (⟨.tryConnect, r⟩, []) else (⟨.finalCleanup, r⟩, [])
  | .tryConnect =>
    if e.fails then (⟨.outerCheck, r⟩, [.connect, .disconnect, .sleepSeconds 3])
    else (⟨.innerCheck, r⟩, [.connect])
  | .innerCheck =>
    if r then
      if e.fails then (⟨.outerCheck, r⟩, [.runIterate 100, .disconnect, .sleepSeconds 3])
      else (⟨.innerCheck, r⟩, [.runIterate 100])
    else (⟨.finalCleanup, r⟩, [])
  | .finalCleanup => (⟨.exited, r⟩, [.disconnect])
  | .exited => (⟨.exited, r⟩, [])

/-- Run a sequence of steps, collecting the emitted actions. -/
def subRun (s : SubState) : List SubEvent → List SubAction × SubState
  | [] => ([], s)
  | e :: es =>
    let step := subStep s e
    let rest := subRun step.1 es
    (step.2 ++ rest.1, rest.2)

/-- Steps needed to reach `exited` once the flag is down. -/
def phaseDist : SubPhase → Nat
  | .outerCheck => 2
  | .tryConnect => 3
  | .innerCheck => 2
  | .finalCleanup => 1
  | .exited => 0

/-! ## The async method-call example
(`method/client_method_async_annotated.cpp`) -/

/-- The operations `main` performs, in program order. -/
inductive AsyncAction where
  | connect (url : String)
  | browseGreet          -- objectsNode.browseChild({{1, "Greet"}})
  | spawnClientThread    -- std::thread([..] { client.run(); })
  | sleepMs (n : Nat)
  | callMethodAsyncFuture (method : String) (arg : String)   -- with opcua::useFuture
  | futureWait
  | futureGet
  | callMethodAsyncCallback (method : String) (arg : String) -- with completion callback
  | stopClient
  | joinClientThread
  deriving DecidableEq, Repr

/-- The trace of `main` (`client_method_async_annotated.cpp`, lines 33-168),
read off the source in program order. -/
def clientMethodAsyncTrace : List AsyncAction :=
  [ .connect "opc.tcp://localhost:4840",
    .browseGreet,
    .spawnClientThread,
    .sleepMs 100,
    .callMethodAsyncFuture "Greet" "Future World",
    .futureWait,
    .futureGet,
    .callMethodAsyncCallback "Greet" "Callback World",
    .sleepMs 500,
    .stopClient,
    .joinClientThread ]

/-- The target method of an action, when the action is an asynchronous
method call. -/
def AsyncAction.asyncCallTarget : AsyncAction → Option String
  | .callMethodAsyncFuture m _ => some m
  | .callMethodAsyncCallback m _ => some m
  | _ => none

end OpcUaExamples

namespace OpcUaExamples

/-! ## Helper lemmas -/

theorem Int32.wrap_inRange (x : Int) : Int32.inRange (Int32.wrap x) := by
  unfold Int32.inRange Int32.wrap
  constructor
  · have h := Int.emod_nonneg (x + 2 ^ 31) (by norm_num : (2 ^ 32 : Int) ≠ 0)
    omega
  · have h := Int.emod_lt_of_pos (x + 2 ^ 31) (by norm_num : (0 : Int) < 2 ^ 32)
    omega

theorem Int32.wrap_eq_of_inRange (x : Int) (h : Int32.inRange x) :
    Int32.wrap x = x := by
  unfold Int32.inRange at h
  unfold Int32.wrap
  have : (x + 2 ^ 31) % 2 ^ 32 = x + 2 ^ 31 := by
    apply Int.emod_eq_of_lt <;> omega
  omega

theorem greetRun_eq (s : MethodCallState) (name : String)
    (h0 : s.input[0]? = some (.vString name)) (h2 : s.output ≠ []) :
    greetRun s =
      some { s with output := .vString ("Hello " ++ name) :: s.output.tail } := by
  unfold greetRun
  rw [h0]
  cases ho : s.output with
  | nil => exact absurd ho h2
  | cons a rest => simp [Variant.scalarString, writeOutput0, ho]

theorem incInt32Run_eq (s : MethodCallState) (v : List Int) (delta : Int)
    (h0 : s.input[0]? = some (.vInt32Array v))
    (h1 : s.input[1]? = some (.vInt32 delta))
    (h2 : s.output ≠ []) :
    incInt32Run s =
      some { s with
              output := .vInt32Array (v.map (fun x => Int32.add x delta)) :: s.output.tail } := by
  unfold incInt32Run
  rw [h0, h1]
  cases ho : s.output with
  | nil => exact absurd ho h2
  | cons a rest => simp [Variant.arrayInt32, Variant.scalarInt32, writeOutput0, ho]

theorem Session.get_set (s : Session) (k : AttributeKey) (v : Variant) :
    (s.setSessionAttribute k v).getSessionAttribute k = some v := by
  unfold Session.setSessionAttribute Session.getSessionAttribute
  simp [List.find?]

theorem applySignal_false (sig : Option Nat) : applySignal sig false = false := by
  cases sig with
  | none => rfl
  | some s =>
    simp [applySignal, signalHandler]

theorem subStep_running_false (s : SubState) (e : SubEvent)
    (h : s.running = false) : (subStep s e).1.running = false := by
  have hr : applySignal e.sig s.running = false := by rw [h]; exact applySignal_false e.sig
  unfold subStep
  cases s.phase <;> simp [hr] <;> split <;> simp [hr]

theorem subStep_no_iterate (s : SubState) (e : SubEvent) (h : s.running = false)
    (ms : Nat) : SubAction.runIterate ms ∉ (subStep s e).2 := by
  have hr : applySignal e.sig s.running = false := by rw [h]; exact applySignal_false e.sig
  unfold subStep
  cases s.phase <;> simp [hr] <;> split <;> simp

theorem subRun_no_iterate (es : List SubEvent) : ∀ s : SubState, s.running = false →
    ∀ ms, SubAction.runIterate ms ∉ (subRun s es).1 := by
  induction es with
  | nil => intro s _ ms; simp [subRun]
  | cons e es ih =>
    intro s h ms
    simp only [subRun, List.mem_append]
    push_neg
    exact ⟨subStep_no_iterate s e h ms,
           ih (subStep s e).1 (subStep_running_false s e h) ms⟩

theorem subRun_exits (es : List SubEvent) : ∀ s : SubState, s.running = false →
    phaseDist s.phase ≤ es.length →
    (subRun s es).2.phase = .exited ∧
    (s.phase ≠ .exited → SubAction.disconnect ∈ (subRun s es).1) := by
  induction es with
  | nil =>
    intro s h hd
    cases hp : s.phase <;> rw [hp] at hd <;> simp [phaseDist] at hd <;>
      simp [subRun, hp]
  | cons e es ih =>
    intro s h hd
    have hr : applySignal e.sig s.running = false := by
      rw [h]; exact applySignal_false e.sig
    rcases s with ⟨phase, running⟩
    simp only at h
    subst h
    cases phase with
    | outerCheck =>
      have hstep : subStep ⟨.outerCheck, false⟩ e = (⟨.finalCleanup, false⟩, []) := by
        unfold subStep; simp [hr]
      simp only [subRun, hstep]
      have := ih ⟨.finalCleanup, false⟩ rfl
        (by simp [phaseDist]; simp [phaseDist] at hd; omega)
      exact ⟨this.1, fun _ => by simpa using this.2 (by simp)⟩
    | tryConnect =>
      cases hf : e.fails with
      | true =>
        have hstep : subStep ⟨.tryConnect, false⟩ e =
            (⟨.outerCheck, false⟩, [.connect, .disconnect, .sleepSeconds 3]) := by
          unfold subStep; simp [hr, hf]
        simp only [subRun, hstep]
        have := ih ⟨.outerCheck, false⟩ rfl
          (by simp [phaseDist]; simp [phaseDist] at hd; omega)
        exact ⟨this.1, fun _ => by simp⟩
      | false =>
        have hstep : subStep ⟨.tryConnect, false⟩ e =
            (⟨.innerCheck, false⟩, [.connect]) := by
          unfold subStep; simp [hr, hf]
        simp only [subRun, hstep]
        have := ih ⟨.innerCheck, false⟩ rfl
          (by simp [phaseDist]; simp [phaseDist] at hd; omega)
        exact ⟨this.1, fun _ => by simpa using this.2 (by simp)⟩
    | innerCheck =>
      have hstep : subStep ⟨.innerCheck, false⟩ e = (⟨.finalCleanup, false⟩, []) := by
        unfold subStep; simp [hr]
      simp only [subRun, hstep]
      have := ih ⟨.finalCleanup, false⟩ rfl
        (by simp [phaseDist]; simp [phaseDist] at hd; omega)
      exact ⟨this.1, fun _ => by simpa using this.2 (by simp)⟩
    | finalCleanup =>
      have hstep : subStep ⟨.finalCleanup, false⟩ e = (⟨.exited, false⟩, [.disconnect]) := by
        unfold subStep; simp [hr]
      simp only [subRun, hstep]
      have := ih ⟨.exited, false⟩ rfl (by simp [phaseDist])
      exact ⟨this.1, fun _ => by simp⟩
    | exited =>
      have hstep : subStep ⟨.exited, false⟩ e = (⟨.exited, false⟩, []) := by
        unfold subStep; simp [hr]
      simp only [subRun, hstep]
      have := ih ⟨.exited, false⟩ rfl (by simp [phaseDist])
      exact ⟨this.1, fun hne => absurd rfl hne⟩

/-! ## Claim theorems -/

/-- C8: whenever the first input of `IncInt32ArrayValues` holds an int32
array `v` and the second an int32 scalar `delta`, the handler writes to its
first output an int32 array `r` with `r.length = v.length` and
`r[i] = v[i] + delta` under 32-bit two's-complement wrap-around addition,
every element of `r` again an int32; the input span is left unmodified. -/
theorem incInt32ArrayValues_correct
    (s : MethodCallState) (v : List Int) (delta : Int)
    (h0 : s.input[0]? = some (.vInt32Array v))
    (h1 : s.input[1]? = some (.vInt32 delta))
    (h2 : s.output ≠ [])
    (_hv : ∀ x ∈ v, Int32.inRange x) (_hd : Int32.inRange delta) :
    ∃ r : List Int,
      incInt32Run s =
        some { input := s.input, output := .vInt32Array r :: s.output.tail } ∧
      r.length = v.length ∧
      (∀ i : Nat, r[i]? = (v[i]?).map (fun x => Int32.add x delta)) ∧
      (∀ x ∈ r, Int32.inRange x) := by
  refine ⟨v.map (fun x => Int32.add x delta), ?_, by simp, ?_, ?_⟩
  · rw [incInt32Run_eq s v delta h0 h1 h2]
  · intro i
    simp [List.getElem?_map]
  · intro x hx
    rcases List.mem_map.mp hx with ⟨y, _, rfl⟩
    exact Int32.wrap_inRange (y + delta)

/-- Witness for `incInt32ArrayValues_correct` at a concrete invocation whose
addition overflows and wraps. -/
theorem incInt32ArrayValues_correct_witness :
    (∃ r : List Int,
      incInt32Run ⟨[.vInt32Array [1, -3], .vInt32 2147483647], [.vInt32 0]⟩ =
        some { input := [.vInt32Array [1, -3], .vInt32 2147483647],
               output := .vInt32Array r :: [] } ∧
      r.length = 2 ∧
      (∀ i : Nat, r[i]? = (([1, -3] : List Int)[i]?).map (fun x => Int32.add x 2147483647)) ∧
      (∀ x ∈ r, Int32.inRange x)) :=
  incInt32ArrayValues_correct
    ⟨[.vInt32Array [1, -3], .vInt32 2147483647], [.vInt32 0]⟩ [1, -3] 2147483647
    (by decide) (by decide) (by decide) (by decide) (by decide)

/-- C1 counterexample: the `Greet` handler is not a pass-through — on the
concrete input `"World"` it writes `"Hello World"`, a value it computed
itself (string concatenation), which is none of the variants it was given. -/
theorem greet_not_pass_through :
    greetRun ⟨[.vString "World"], [.vString ""]⟩ =
      some ⟨[.vString "World"], [.vString "Hello World"]⟩ ∧
    ¬ specPassThroughHandler greetRun := by
  constructor
  · decide
  · intro h
    have hm := h ⟨[.vString "World"], [.vString ""]⟩
      ⟨[.vString "World"], [.vString "Hello World"]⟩ (by decide)
      (.vString "Hello World") (by decide)
    exact absurd hm (by decide)

/-- C1 amended: the two registered handler bodies do perform computations of
their own on their inputs — `Greet` writes the concatenation
`"Hello " ++ name`, and `IncInt32ArrayValues` writes the element-wise
wrap-around sum with `delta` — and beyond computing these values each body
only reads its input span and assigns its first output. -/
theorem method_handlers_compute
    (s : MethodCallState) (name : String) (v : List Int) (delta : Int) :
    (s.input[0]? = some (.vString name) → s.output ≠ [] →
      greetRun s =
        some { s with output := .vString ("Hello " ++ name) :: s.output.tail }) ∧
    (s.input[0]? = some (.vInt32Array v) → s.input[1]? = some (.vInt32 delta) →
      s.output ≠ [] →
      incInt32Run s =
        some { s with
                output := .vInt32Array (v.map (fun x => Int32.add x delta)) ::
                  s.output.tail }) := by
  exact ⟨fun h0 h2 => greetRun_eq s name h0 h2,
         fun h0 h1 h2 => incInt32Run_eq s v delta h0 h1 h2⟩

/-- Witness for `method_handlers_compute` at concrete invocations of both
handlers. -/
theorem method_handlers_compute_witness :
    greetRun ⟨[.vString "Ada"], [.vString ""]⟩ =
      some { input := [.vString "Ada"], output := [.vString "Hello Ada"] } ∧
    incInt32Run ⟨[.vInt32Array [10, 20], .vInt32 1], [.vInt32 0]⟩ =
      some { input := [.vInt32Array [10, 20], .vInt32 1],
             output := [.vInt32Array [11, 21]] } := by
  constructor
  · have h := (method_handlers_compute ⟨[.vString "Ada"], [.vString ""]⟩
      "Ada" [] 0).1 (by decide) (by decide)
    rw [h]
    decide
  · have h := (method_handlers_compute ⟨[.vInt32Array [10, 20], .vInt32 1], [.vInt32 0]⟩
      "" [10, 20] 1).2 (by decide) (by decide) (by decide)
    rw [h]
    decide

/-- C2 counterexample: the typeconversion example does introduce its own
mapping between a C++ type (`std::byte`) and a native OPC UA type
(`UA_Byte`), and the server custom-datatypes example does register
repository-defined data types — falsifying the universal "no file" claim at
these two files. -/
theorem type_mapping_exists :
    definesTypeMapping .typeconversion = true ∧
    registersCustomDataTypes .serverCustomDatatypes = true := by
  decide

/-- C2 amended: the domain objects listed by the spec are consumed, not
redefined, but exactly one supplied file (the typeconversion example)
introduces a C++-to-native type mapping — the `TypeConverter<std::byte>`
specialisation, whose two directions are mutually inverse identities on the
8-bit value — and exactly the two custom-datatypes examples register
repository-defined data types. -/
theorem type_definitions_inventory :
    (∀ f, definesTypeMapping f = true ↔ f = .typeconversion) ∧
    (∀ f, registersCustomDataTypes f = true ↔
      (f = .clientCustomDatatypes ∨ f = .serverCustomDatatypes)) ∧
    (∀ b, byteFromNative (byteToNative b) = b) ∧
    (∀ b, byteToNative (byteFromNative b) = b) := by
  refine ⟨by decide, by decide, fun b => rfl, fun b => rfl⟩

/-- C3 counterexample: the templated `DataSource` is a third class defined
in the supplied files deriving from a plugin interface of the wrapped
library (`DataSourceBase`), distinct from the access-control and
value-callback classes. -/
theorem dataSource_subclass_exists :
    derivesFromPlugin .dataSource = some .dataSourceBase ∧
    DefinedClass.dataSource ≠ .accessControlCustom ∧
    DefinedClass.dataSource ≠ .currentTimeCallback := by
  decide

/-- C3 amended: exactly three classes defined in the supplied files derive
from plugin interfaces of the wrapped library — `AccessControlCustom` (from
`AccessControlDefault`), `CurrentTimeCallback` (from `ValueCallbackBase`)
and the templated `DataSource` (from `DataSourceBase`) — and no other
defined class does. -/
theorem plugin_subclassing_inventory :
    (∀ c, (derivesFromPlugin c).isSome = true ↔
      (c = .accessControlCustom ∨ c = .currentTimeCallback ∨ c = .dataSource)) ∧
    derivesFromPlugin .accessControlCustom = some .accessControlDefault ∧
    derivesFromPlugin .currentTimeCallback = some .valueCallbackBase ∧
    derivesFromPlugin .dataSource = some .dataSourceBase ∧
    classFile .accessControlCustom = .serverAccesscontrol ∧
    classFile .currentTimeCallback = .serverValuecallback ∧
    classFile .dataSource = .serverDatasource := by
  decide

/-- C4: exactly one example program — the client connect example — has a
`main` that receives the command line, and the run of every other example
program is independent of the argument vector (same console lines, same exit
code, for any two argument vectors and any behaviour of the parameterless
mains); the client connect example, by contrast, genuinely depends on its
arguments. -/
theorem command_line_isolation
    (behaviour : SourceFile → Nat × List String) (f : SourceFile)
    (a b : List String) (env : ConnectEnv) :
    (mainTakesArgv f = true ↔ f = .clientConnect) ∧
    (f ≠ .clientConnect →
      runExampleProgram behaviour f a env = runExampleProgram behaviour f b env) ∧
    runExampleProgram behaviour .clientConnect [] env ≠
      runExampleProgram behaviour .clientConnect
        ["client_connect", "opc.tcp://localhost:4840"] env := by
  refine ⟨?_, ?_, ?_⟩
  · cases f <;> simp [mainTakesArgv]
  · intro hf
    simp [runExampleProgram, hf]
  · rcases env with ⟨ct, rv⟩
    cases ct <;> cases rv <;> simp [runExampleProgram] <;> decide

/-- Witness for `command_line_isolation`: the server method example's run
does not change between two concrete argument vectors. -/
theorem command_line_isolation_witness :
    runExampleProgram (fun _ => (0, [])) .serverMethod ["x", "y"] ⟨false, false⟩ =
      runExampleProgram (fun _ => (0, [])) .serverMethod [] ⟨false, false⟩ :=
  (command_line_isolation (fun _ => (0, []))
    .serverMethod ["x", "y"] [] ⟨false, false⟩).2.1 (by decide)

/-- C5: the client-connect control flow — the usage guard fires exactly when
fewer than two arguments are supplied or `-h`/`--help` is present, printing
usage and returning 2 without constructing a client; a throwing
`Client::connect` is caught and the program returns 1; otherwise the read
result is checked via `hasValue()` and, whichever way that check goes, the
client is disconnected and the program returns 0. -/
theorem client_connect_control_flow (argv : List String) (env : ConnectEnv) :
    (usageRequested argv = true ↔
      (argv.length < 2 ∨ argv.contains "-h" = true ∨ argv.contains "--help" = true)) ∧
    (usageRequested argv = true →
      clientConnectMain argv env = (2, [.printUsage])) ∧
    (usageRequested argv = false → env.connectThrows = true →
      (clientConnectMain argv env).1 = 1 ∧
      ConnectEvent.connectFailed ∈ (clientConnectMain argv env).2) ∧
    (usageRequested argv = false → env.connectThrows = false →
      (clientConnectMain argv env).1 = 0 ∧
      ConnectEvent.readAttempt ∈ (clientConnectMain argv env).2 ∧
      ConnectEvent.disconnected ∈ (clientConnectMain argv env).2 ∧
      (env.readHasValue = true → ConnectEvent.printTime ∈ (clientConnectMain argv env).2) ∧
      (env.readHasValue = false → ConnectEvent.printReadError ∈ (clientConnectMain argv env).2)) := by
  refine ⟨?_, ?_, ?_, ?_⟩
  · simp [usageRequested, CliParser.hasFlag, CliParser.nargs, CliParser.mk]
    tauto
  · intro h
    simp [clientConnectMain, h]
  · intro h hc
    simp [clientConnectMain, h, hc, List.mem_append]
  · intro h hc
    cases hr : env.readHasValue <;>
      simp [clientConnectMain, h, hc, hr, List.mem_append]

/-- Witness for `client_connect_control_flow`, instantiating the usage path,
the failing-connect path, and the successful path at concrete inputs. -/
theorem client_connect_control_flow_witness :
    clientConnectMain ["client_connect"] ⟨false, true⟩ = (2, [.printUsage]) ∧
    (clientConnectMain ["client_connect", "opc.tcp://h:4840"] ⟨true, true⟩).1 = 1 ∧
    (clientConnectMain ["client_connect", "opc.tcp://h:4840"] ⟨false, false⟩).1 = 0 ∧
    ConnectEvent.disconnected ∈
      (clientConnectMain ["client_connect", "opc.tcp://h:4840"] ⟨false, false⟩).2 := by
  refine ⟨?_, ?_, ?_, ?_⟩
  · exact (client_connect_control_flow ["client_connect"] ⟨false, true⟩).2.1 (by decide)
  · exact ((client_connect_control_flow ["client_connect", "opc.tcp://h:4840"]
      ⟨true, true⟩).2.2.1 (by decide) (by decide)).1
  · exact ((client_connect_control_flow ["client_connect", "opc.tcp://h:4840"]
      ⟨false, false⟩).2.2.2 (by decide) (by decide)).1
  · exact ((client_connect_control_flow ["client_connect", "opc.tcp://h:4840"]
      ⟨false, false⟩).2.2.2 (by decide) (by decide)).2.2.1

/-- C9: `activateSession` stores the session attribute `isAdmin` as true
exactly when the identity token decodes to a `UserNameIdentityToken` whose
user name is `"admin"` (and as false otherwise, in particular for anonymous
users), then returns the default implementation's verdict; and for every
session whose `isAdmin` attribute holds a bool and every node id,
`getUserAccessLevel` grants CurrentRead|CurrentWrite to admins and exactly
CurrentRead — with no write bit — to everyone else. -/
theorem access_control_custom_correct
    (defaultActivate : Session → ExtensionObject → Nat)
    (session : Session) (tok : ExtensionObject) (nodeId : NumericNodeId)
    (s : Session) :
    ((activateSessionCustom defaultActivate session tok).1.getSessionAttribute
        (0, "isAdmin") = some (.vBool true) ↔
      (∃ t, tok.decodedUserNameToken = some t ∧ t.userName = "admin")) ∧
    ((activateSessionCustom defaultActivate session tok).1.getSessionAttribute
        (0, "isAdmin") = some (.vBool true) ∨
     (activateSessionCustom defaultActivate session tok).1.getSessionAttribute
        (0, "isAdmin") = some (.vBool false)) ∧
    ((activateSessionCustom defaultActivate session tok).2 =
      defaultActivate (activateSessionCustom defaultActivate session tok).1 tok) ∧
    (s.getSessionAttribute (0, "isAdmin") = some (.vBool true) →
      getUserAccessLevelCustom s nodeId =
        some (AccessLevel.currentRead ||| AccessLevel.currentWrite)) ∧
    (s.getSessionAttribute (0, "isAdmin") = some (.vBool false) →
      getUserAccessLevelCustom s nodeId = some AccessLevel.currentRead ∧
      AccessLevel.currentRead &&& AccessLevel.currentWrite = 0) := by
  refine ⟨?_, ?_, ?_, ?_, ?_⟩
  · unfold activateSessionCustom
    cases tok with
    | empty => simp [ExtensionObject.decodedUserNameToken, Session.get_set]
    | anonymousToken => simp [ExtensionObject.decodedUserNameToken, Session.get_set]
    | userNameToken t =>
      simp only [ExtensionObject.decodedUserNameToken, Session.get_set]
      constructor
      · intro h
        refine ⟨t, rfl, ?_⟩
        have := Option.some.inj h
        have hb : (t.userName == "admin") = true := by
          cases hbe : (t.userName == "admin") with
          | true => rfl
          | false => rw [hbe] at this; exact absurd this (by decide)
        exact eq_of_beq hb
      · rintro ⟨u, hu, hn⟩
        obtain rfl : u = t := by
          have := Option.some.inj hu; exact this.symm
        simp [hn]
  · unfold activateSessionCustom
    rw [Session.get_set]
    rcases tok.decodedUserNameToken with _ | t
    · right; rfl
    · cases hbe : (t.userName == "admin")
      · right; simp [hbe]
      · left; simp [hbe]
  · rfl
  · intro h
    unfold getUserAccessLevelCustom
    rw [h]
    simp [Variant.scalarBool]
  · intro h
    unfold getUserAccessLevelCustom
    rw [h]
    simp [Variant.scalarBool]
    decide

/-- Witness for `access_control_custom_correct`: a concrete activation with
the admin token, followed by access-level checks on the resulting session
and on a non-admin session. -/
theorem access_control_custom_correct_witness :
    ((activateSessionCustom (fun _ _ => 0) ⟨[]⟩
        (.userNameToken ⟨"admin", "admin"⟩)).1.getSessionAttribute (0, "isAdmin") =
      some (.vBool true)) ∧
    getUserAccessLevelCustom ⟨[((0, "isAdmin"), .vBool true)]⟩ (1, 1000) =
      some (AccessLevel.currentRead ||| AccessLevel.currentWrite) ∧
    getUserAccessLevelCustom ⟨[((0, "isAdmin"), .vBool false)]⟩ (1, 1000) =
      some AccessLevel.currentRead := by
  refine ⟨?_, ?_, ?_⟩
  · exact (access_control_custom_correct (fun _ _ => 0) ⟨[]⟩
      (.userNameToken ⟨"admin", "admin"⟩) (1, 1000) ⟨[]⟩).1.mpr
      ⟨⟨"admin", "admin"⟩, rfl, rfl⟩
  · exact (access_control_custom_correct (fun _ _ => 0) ⟨[]⟩ .empty (1, 1000)
      ⟨[((0, "isAdmin"), .vBool true)]⟩).2.2.2.1 (by decide)
  · exact ((access_control_custom_correct (fun _ _ => 0) ⟨[]⟩ .empty (1, 1000)
      ⟨[((0, "isAdmin"), .vBool false)]⟩).2.2.2.2 (by decide)).1

/-- C10: for the templated data source, a write with a `DataValue` holding
`x` followed by a read yields a `DataValue` whose value is `x`; a read
leaves the stored data unchanged; and both operations return
`UA_STATUSCODE_GOOD` on every call that completes. -/
theorem data_source_roundtrip {α : Type} (s : DataSourceState α)
    (dv dv2 : DataValue α) (x : α) (timestamp : Bool) (now : Nat) :
    (dv.value = some x →
      ∃ s2, dataSourceWrite s dv = some (s2, UA_STATUSCODE_GOOD) ∧
        (dataSourceRead s2 dv2 timestamp now).2.1.value = some x) ∧
    (dataSourceRead s dv timestamp now).1 = s ∧
    (dataSourceRead s dv timestamp now).2.2 = UA_STATUSCODE_GOOD ∧
    (∀ r, dataSourceWrite s dv = some r → r.2 = UA_STATUSCODE_GOOD) := by
  refine ⟨?_, rfl, rfl, ?_⟩
  · intro h
    refine ⟨{ s with data := x }, ?_, rfl⟩
    unfold dataSourceWrite
    rw [h]
  · intro r hr
    unfold dataSourceWrite at hr
    cases hv : dv.value with
    | none => rw [hv] at hr; exact absurd hr (by simp)
    | some y =>
      rw [hv] at hr
      have := Option.some.inj hr
      rw [← this]

/-- Witness for `data_source_roundtrip` at a concrete integer store. -/
theorem data_source_roundtrip_witness :
    ∃ s2, dataSourceWrite (⟨42⟩ : DataSourceState Int) ⟨some 7, none⟩ =
        some (s2, UA_STATUSCODE_GOOD) ∧
      (dataSourceRead s2 ⟨none, none⟩ true 99).2.1.value = some 7 :=
  (data_source_roundtrip (⟨42⟩ : DataSourceState Int) ⟨some 7, none⟩
    ⟨none, none⟩ 7 true 99).1 rfl

/-- C6: the subscription example's loops — the handler clears `isRunning`
for SIGINT and SIGTERM; every iterate call uses the fixed interval 100 and
every retry wait the fixed 3 seconds; a `BadStatus` thrown while iterating
leads to disconnect, the 3-second wait and the outer check; and once the
flag is down the run emits no further `runIterate`, both loops terminate
within three steps, and disconnect is called before `main` exits. -/
theorem subscription_loop_shutdown
    (r : Bool) (s : SubState) (e : SubEvent) (es : List SubEvent) :
    (signalHandler SIGINT r = false ∧ signalHandler SIGTERM r = false) ∧
    (∀ ms, SubAction.runIterate ms ∈ (subStep s e).2 → ms = 100) ∧
    (∀ n, SubAction.sleepSeconds n ∈ (subStep s e).2 → n = 3) ∧
    (s.phase = .innerCheck → applySignal e.sig s.running = true → e.fails = false →
      subStep s e = (⟨.innerCheck, true⟩, [.runIterate 100])) ∧
    (s.phase = .innerCheck → applySignal e.sig s.running = true → e.fails = true →
      subStep s e =
        (⟨.outerCheck, true⟩, [.runIterate 100, .disconnect, .sleepSeconds 3])) ∧
    (s.running = false →
      (∀ ms, SubAction.runIterate ms ∉ (subRun s es).1) ∧
      (3 ≤ es.length →
        (subRun s es).2.phase = .exited ∧
        (s.phase ≠ .exited → SubAction.disconnect ∈ (subRun s es).1))) := by
  refine ⟨⟨rfl, rfl⟩, ?_, ?_, ?_, ?_, ?_⟩
  · intro ms hms
    rcases s with ⟨phase, running⟩
    cases phase <;> cases hr : applySignal e.sig running <;> cases hf : e.fails <;>
      simp [subStep, hr, hf] at hms <;> omega
  · intro n hn
    rcases s with ⟨phase, running⟩
    cases phase <;> cases hr : applySignal e.sig running <;> cases hf : e.fails <;>
      simp [subStep, hr, hf] at hn <;> omega
  · intro hp hr hf
    unfold subStep
    rw [hp, hr, hf]
    simp
  · intro hp hr hf
    unfold subStep
    rw [hp, hr, hf]
    simp
  · intro h
    refine ⟨subRun_no_iterate es s h, fun hlen => ?_⟩
    have hd : phaseDist s.phase ≤ es.length := by
      cases s.phase <;> simp [phaseDist] <;> omega
    exact subRun_exits es s h hd

/-- Witness for `subscription_loop_shutdown`: a SIGINT delivered while
iterating clears the flag; the remaining three steps leave the inner loop,
leave the outer loop, disconnect and exit without any further iterate. -/
theorem subscription_loop_shutdown_witness :
    (∀ ms, SubAction.runIterate ms ∉
      (subRun ⟨.innerCheck, false⟩
        [⟨none, false⟩, ⟨none, false⟩, ⟨none, false⟩]).1) ∧
    (subRun ⟨.innerCheck, false⟩
      [⟨none, false⟩, ⟨none, false⟩, ⟨none, false⟩]).2.phase = .exited ∧
    SubAction.disconnect ∈
      (subRun ⟨.innerCheck, false⟩
        [⟨none, false⟩, ⟨none, false⟩, ⟨none, false⟩]).1 := by
  have h := (subscription_loop_shutdown false ⟨.innerCheck, false⟩ ⟨none, false⟩
    [⟨none, false⟩, ⟨none, false⟩, ⟨none, false⟩]).2.2.2.2.2 rfl
  exact ⟨h.1, (h.2 (by decide)).1, (h.2 (by decide)).2 (by decide)⟩

/-- C7: in the async method-call example, the client event loop thread is
spawned before either asynchronous invocation; `main` makes exactly two
asynchronous method calls, both targeting `Greet` — first the
future-returning form, whose future is waited on before its result is read,
then the completion-callback form — and afterwards stops the client and
joins the event-loop thread, in that order. -/
theorem async_method_call_pattern :
    clientMethodAsyncTrace.indexOf .spawnClientThread <
      clientMethodAsyncTrace.indexOf (.callMethodAsyncFuture "Greet" "Future World") ∧
    clientMethodAsyncTrace.filterMap AsyncAction.asyncCallTarget = ["Greet", "Greet"] ∧
    clientMethodAsyncTrace.indexOf (.callMethodAsyncFuture "Greet" "Future World") <
      clientMethodAsyncTrace.indexOf .futureWait ∧
    clientMethodAsyncTrace.indexOf .futureWait <
      clientMethodAsyncTrace.indexOf .futureGet ∧
    clientMethodAsyncTrace.indexOf .futureGet <
      clientMethodAsyncTrace.indexOf (.callMethodAsyncCallback "Greet" "Callback World") ∧
    clientMethodAsyncTrace.indexOf (.callMethodAsyncCallback "Greet" "Callback World") <
      clientMethodAsyncTrace.indexOf .stopClient ∧
    clientMethodAsyncTrace.indexOf .stopClient <
      clientMethodAsyncTrace.indexOf .joinClientThread ∧
    AsyncAction.spawnClientThread ∈ clientMethodAsyncTrace ∧
    AsyncAction.stopClient ∈ clientMethodAsyncTrace ∧
    AsyncAction.joinClientThread ∈ clientMethodAsyncTrace := by
  decide

end OpcUaExamples
